import Mathlib

/-
Verification of the plant-it backend's project / membership / tasking layer.

The concepts (`ProjectConcept`, `GroupItemConcept`, `TaskingConcept`) and the
route layer (`routes.ts`) are embedded as pure functions over explicit
collection states.  The document store (`framework/doc`, an external
collaborator per the spec) is modelled as a list of documents in insertion
order plus a fresh-id counter; read-one / delete-one / update-one act on the
first matching document, read-many / delete-many on all matching documents.
Errors abort the enclosing request: each route returns the outcome together
with the state at the point of return, so mutations performed before a throw
are kept (as in the source, where earlier awaited store calls have committed).
-/

namespace PlantIt

/-- Error values of the concept layer: `NotFoundError`, `NotAllowedError`
and `UserCreatorNotMatchError` (which extends `NotAllowedError`, i.e. a
Forbidden / creator-mismatch error). -/
inductive AppError where
  | notFound (msg : String)
  | notAllowed (msg : String)
  | userCreatorNotMatch (user : Nat) (projectId : Nat)
deriving Repr, DecidableEq

/-- `ProjectDoc`: creator id and name (base fields other than `_id` omitted). -/
structure ProjectDoc where
  _id : Nat
  creator : Nat
  name : String
deriving Repr, DecidableEq

/-- `GroupItemDoc`: a membership pair linking a group id and an item id. -/
structure GroupItemDoc where
  _id : Nat
  group : Nat
  item : Nat
deriving Repr, DecidableEq

/-- `TaskDoc`: description, owning project, optional assignee, completion. -/
structure TaskDoc where
  _id : Nat
  description : String
  project : Nat
  assignee : Option Nat
  completion : Bool
deriving Repr, DecidableEq

/-- Modelled from the spec: `DocCollection` of `framework/doc` (not under
`src/`) is the generic collection abstraction "supporting create-one,
read-one, read-many, partial-update-one, delete-one, delete-many, keyed by
an opaque unique identifier".  Documents are kept in insertion order and
`nextId` is the next fresh identifier. -/
structure Collection (α : Type) where
  docs : List α
  nextId : Nat
deriving Repr, DecidableEq

/-- read-one: the first document matching the filter. -/
def readOne (p : α → Bool) (l : List α) : Option α := l.find? p

/-- read-many: all documents matching the filter. -/
def readMany (p : α → Bool) (l : List α) : List α := l.filter p

/-- update-one: patch the first document matching the filter. -/
def updateFirst (p : α → Bool) (f : α → α) : List α → List α
  | [] => []
  | x :: xs => if p x then f x :: xs else x :: updateFirst p f xs

/-- delete-one: remove the first document matching the filter. -/
def deleteFirst (p : α → Bool) : List α → List α
  | [] => []
  | x :: xs => if p x then xs else x :: deleteFirst p xs

/-- delete-many: remove every document matching the filter. -/
def deleteMany (p : α → Bool) (l : List α) : List α := l.filter (fun x => !p x)

abbrev ProjectState := Collection ProjectDoc
abbrev GroupItemState := Collection GroupItemDoc
abbrev TaskState := Collection TaskDoc

namespace Project

/-- `ProjectConcept.assertProjectNameUnique`: throws `NotAllowedError` if a
project with the name already exists. -/
def assertProjectNameUnique (name : String) (s : ProjectState) : Except AppError Unit :=
  match readOne (fun d => d.name == name) s.docs with
  | some _ => .error (.notAllowed s!"Project with name {name} already exists! Please choose a different name.")
  | none => .ok ()

/-- `ProjectConcept.create`: asserts name uniqueness, then inserts
`\x7b creator, name \x7d` and returns the record read back by its fresh id. -/
def create (creator : Nat) (name : String) (s : ProjectState) :
    Except AppError (Option ProjectDoc) × ProjectState :=
  match assertProjectNameUnique name s with
  | .error e => (.error e, s)
  | .ok _ =>
    let docs := s.docs ++ [{ _id := s.nextId, creator := creator, name := name }]
    (.ok (readOne (fun d => d._id == s.nextId) docs), { docs := docs, nextId := s.nextId + 1 })

/-- `ProjectConcept.getProject`: read-one by id. -/
def getProject (pid : Nat) (s : ProjectState) : Option ProjectDoc :=
  readOne (fun d => d._id == pid) s.docs

/-- `ProjectConcept.getProjectByName`: read-many by name. -/
def getProjectByName (name : String) (s : ProjectState) : List ProjectDoc :=
  readMany (fun d => d.name == name) s.docs

/-- `ProjectConcept.updateProjectName`: asserts name uniqueness, then patches
the name of the first document with the given id. -/
def updateProjectName (pid : Nat) (name : String) (s : ProjectState) :
    Except AppError Unit × ProjectState :=
  match assertProjectNameUnique name s with
  | .error e => (.error e, s)
  | .ok _ =>
    let docs := updateFirst (fun d => d._id == pid) (fun d => { d with name := name }) s.docs
    (.ok (), { s with docs := docs })

/-- `ProjectConcept.updateProjectCreator`: patches the creator (no check). -/
def updateProjectCreator (pid creator : Nat) (s : ProjectState) : ProjectState :=
  let docs := updateFirst (fun d => d._id == pid) (fun d => { d with creator := creator }) s.docs
  { s with docs := docs }

/-- `ProjectConcept.deleteProject`: delete-one by id. -/
def deleteProject (pid : Nat) (s : ProjectState) : ProjectState :=
  { s with docs := deleteFirst (fun d => d._id == pid) s.docs }

/-- `ProjectConcept.assertUserIsCreator`: `NotFoundError` if the project is
missing, `UserCreatorNotMatchError` if the user is not its creator. -/
def assertUserIsCreator (pid user : Nat) (s : ProjectState) : Except AppError Unit :=
  match getProject pid s with
  | none => .error (.notFound s!"Project {pid} does not exist!")
  | some project =>
    if project.creator == user then .ok ()
    else .error (.userCreatorNotMatch user pid)

end Project

namespace GroupItem

/-- `GroupItemConcept.addGroupItem`: inserts the pair unconditionally (no
uniqueness or existence check) and always succeeds. -/
def addGroupItem (group item : Nat) (s : GroupItemState) : GroupItemState :=
  { docs := s.docs ++ [{ _id := s.nextId, group := group, item := item }],
    nextId := s.nextId + 1 }

/-- `GroupItemConcept.removeGroupItem`: delete-one by (group, item). -/
def removeGroupItem (group item : Nat) (s : GroupItemState) : GroupItemState :=
  { s with docs := deleteFirst (fun d => d.group == group && d.item == item) s.docs }

/-- `GroupItemConcept.getItemsInGroup`: read-many by group, projected to items. -/
def getItemsInGroup (group : Nat) (s : GroupItemState) : List Nat :=
  (readMany (fun d => d.group == group) s.docs).map (fun d => d.item)

/-- `GroupItemConcept.getGroupsForItem`: read-many by item. -/
def getGroupsForItem (item : Nat) (s : GroupItemState) : List GroupItemDoc :=
  readMany (fun d => d.item == item) s.docs

/-- `GroupItemConcept.deleteAllItemsInGroup`: delete-many by group. -/
def deleteAllItemsInGroup (group : Nat) (s : GroupItemState) : GroupItemState :=
  { s with docs := deleteMany (fun d => d.group == group) s.docs }

/-- `GroupItemConcept.deleteItemFromAllGroups`: delete-many by item. -/
def deleteItemFromAllGroups (item : Nat) (s : GroupItemState) : GroupItemState :=
  { s with docs := deleteMany (fun d => d.item == item) s.docs }

/-- `GroupItemConcept.assertItemInGroup`: `NotFoundError` if the pair is
absent; a pure read, the store is never modified. -/
def assertItemInGroup (group item : Nat) (s : GroupItemState) : Except AppError Unit :=
  match readOne (fun d => d.group == group && d.item == item) s.docs with
  | none => .error (.notFound s!"Item {item} not in group {group}!")
  | some _ => .ok ()

end GroupItem

namespace Tasking

/-- `TaskingConcept.create`: inserts the task with `completion := false` and
returns the record read back by its fresh id. -/
def create (description : String) (project : Nat) (assignee : Option Nat) (s : TaskState) :
    Option TaskDoc × TaskState :=
  let doc : TaskDoc := { _id := s.nextId, description := description, project := project, assignee := assignee, completion := false }
  let docs := s.docs ++ [doc]
  (readOne (fun d => d._id == s.nextId) docs, { docs := docs, nextId := s.nextId + 1 })

/-- `TaskingConcept.delete`: delete-one by id. -/
def delete (id : Nat) (s : TaskState) : TaskState :=
  { s with docs := deleteFirst (fun d => d._id == id) s.docs }

/-- `TaskingConcept.deleteTasksForProject`: delete-many by project. -/
def deleteTasksForProject (project : Nat) (s : TaskState) : TaskState :=
  { s with docs := deleteMany (fun d => d.project == project) s.docs }

/-- `TaskingConcept.updateDescription`: patches the description. -/
def updateDescription (id : Nat) (description : String) (s : TaskState) : TaskState :=
  let docs := updateFirst (fun d => d._id == id) (fun d => { d with description := description }) s.docs
  { s with docs := docs }

/-- `TaskingConcept.updateAssignee`: patches the assignee. -/
def updateAssignee (id assignee : Nat) (s : TaskState) : TaskState :=
  let docs := updateFirst (fun d => d._id == id) (fun d => { d with assignee := some assignee }) s.docs
  { s with docs := docs }

/-- `TaskingConcept.getTask`: read-one by id. -/
def getTask (id : Nat) (s : TaskState) : Option TaskDoc :=
  readOne (fun d => d._id == id) s.docs

/-- `TaskingConcept.unassignTask`.  Modelled from the spec: the update
primitive of `framework/doc` is not under `src/` and the source leaves the
representation of "no assignee" open; the spec fixes that "clearing
assignment sets it to the empty state", so the optional field is set to
`none`. -/
def unassignTask (id : Nat) (s : TaskState) : TaskState :=
  let docs := updateFirst (fun d => d._id == id) (fun d => { d with assignee := none }) s.docs
  { s with docs := docs }

/-- `TaskingConcept.setCompletionStatus`: patches the completion flag. -/
def setCompletionStatus (id : Nat) (completion : Bool) (s : TaskState) : TaskState :=
  let docs := updateFirst (fun d => d._id == id) (fun d => { d with completion := completion }) s.docs
  { s with docs := docs }

/-- `TaskingConcept.getAllTasksForProject`: read-many by project. -/
def getAllTasksForProject (project : Nat) (s : TaskState) : List TaskDoc :=
  readMany (fun d => d.project == project) s.docs

/-- `TaskingConcept.getAllTasksForUser`: read-many by assignee. -/
def getAllTasksForUser (assignee : Nat) (s : TaskState) : List TaskDoc :=
  readMany (fun d => d.assignee == some assignee) s.docs

end Tasking

/-- The app state composed in `app.ts`: the `projects` collection, the
`projectmembers` group-item collection, the `tasks` collection, and the
task-assignment group-item collection (`TaskAssignee`, the second
`GroupItemConcept` instance used throughout `routes.ts`; its construction in
`app.ts` mirrors `ProjectMember`, per the spec's "one generic type
instantiated twice"). Sessions are modelled as the already-resolved user id
(`Sessioning.getUser`). -/
structure AppState where
  projects : ProjectState
  projectMembers : GroupItemState
  tasks : TaskState
  taskAssignees : GroupItemState
deriving Repr, DecidableEq

namespace Routes

/-- `Routes.deleteProject`: creator check, then delete membership links, then
delete assignee links for every task of the project, then delete the tasks,
then delete the project record. -/
def deleteProject (user pid : Nat) (s : AppState) : Except AppError String × AppState :=
  match Project.assertUserIsCreator pid user s.projects with
  | .error e => (.error e, s)
  | .ok _ =>
    let pm := GroupItem.deleteAllItemsInGroup pid s.projectMembers
    let projectTasks := Tasking.getAllTasksForProject pid s.tasks
    let ta := projectTasks.foldl
        (fun acc t => GroupItem.deleteAllItemsInGroup t._id acc) s.taskAssignees
    let ts := Tasking.deleteTasksForProject pid s.tasks
    let ps := Project.deleteProject pid s.projects
    (.ok "Project successfully deleted!",
      { projects := ps, projectMembers := pm, tasks := ts, taskAssignees := ta })

/-- Result payload of `Routes.getProject`: a single optional record when
fetched by id, a list when fetched by name. -/
inductive GetProjectResult where
  | byId (project : Option ProjectDoc)
  | byName (projects : List ProjectDoc)
deriving Repr, DecidableEq

/-- `Routes.getProject`: by id (with a membership assertion) when `id` is
given, else by name (no assertion), else `NotAllowedError`. -/
def getProject (user : Nat) (name : Option String) (id : Option Nat) (s : AppState) :
    Except AppError GetProjectResult × AppState :=
  match id with
  | some pid =>
    match GroupItem.assertItemInGroup pid user s.projectMembers with
    | .error e => (.error e, s)
    | .ok _ => (.ok (.byId (Project.getProject pid s.projects)), s)
  | none =>
    match name with
    | some nm => (.ok (.byName (Project.getProjectByName nm s.projects)), s)
    | none => (.error (.notAllowed "Did not specify project to fetch!"), s)

/-- `Routes.updateProjectName`: creator check, then concept-level rename. -/
def updateProjectName (user pid : Nat) (name : String) (s : AppState) :
    Except AppError Unit × AppState :=
  match Project.assertUserIsCreator pid user s.projects with
  | .error e => (.error e, s)
  | .ok _ =>
    match Project.updateProjectName pid name s.projects with
    | (.error e, ps) => (.error e, { s with projects := ps })
    | (.ok _, ps) => (.ok (), { s with projects := ps })

/-- `Routes.addMemberToProject`: creator check, then add the membership pair. -/
def addMemberToProject (user pid member : Nat) (s : AppState) :
    Except AppError Unit × AppState :=
  match Project.assertUserIsCreator pid user s.projects with
  | .error e => (.error e, s)
  | .ok _ =>
    (.ok (), { s with projectMembers := GroupItem.addGroupItem pid member s.projectMembers })

/-- `Routes.deleteMemberFromProject`: creator check, then remove the member as
assignee from all tasks (across all groups), then remove the membership pair. -/
def deleteMemberFromProject (user pid member : Nat) (s : AppState) :
    Except AppError Unit × AppState :=
  match Project.assertUserIsCreator pid user s.projects with
  | .error e => (.error e, s)
  | .ok _ =>
    let ta := GroupItem.deleteItemFromAllGroups member s.taskAssignees
    let pm := GroupItem.removeGroupItem pid member s.projectMembers
    (.ok (), { s with taskAssignees := ta, projectMembers := pm })

/-- `Routes.createTask`: creator check, create the task (without assignee),
then, if an assignee is given, assert project membership before linking. -/
def createTask (user pid : Nat) (description : String) (assignee : Option Nat)
    (s : AppState) : Except AppError (Option TaskDoc) × AppState :=
  match Project.assertUserIsCreator pid user s.projects with
  | .error e => (.error e, s)
  | .ok _ =>
    match Tasking.create description pid none s.tasks with
    | (task, ts) =>
      match assignee with
      | some assigneeId =>
        match GroupItem.assertItemInGroup pid assigneeId s.projectMembers with
        | .error e => (.error e, { s with tasks := ts })
        | .ok _ =>
          match task with
          | none => (.error (.notAllowed "Task not successfully created!"), { s with tasks := ts })
          | some t =>
            let ta := GroupItem.addGroupItem t._id assigneeId s.taskAssignees
            (.ok task, { s with tasks := ts, taskAssignees := ta })
      | none => (.ok task, { s with tasks := ts })

/-- `Routes.deleteTask`: look up the task's project, creator check, then
delete the task's assignee links and the task. -/
def deleteTask (user tid : Nat) (s : AppState) : Except AppError Unit × AppState :=
  match (Tasking.getTask tid s.tasks).map (fun t => t.project) with
  | none => (.error (.notAllowed "Task does not exist!"), s)
  | some pid =>
    match Project.assertUserIsCreator pid user s.projects with
    | .error e => (.error e, s)
    | .ok _ =>
      let ta := GroupItem.deleteAllItemsInGroup tid s.taskAssignees
      let ts := Tasking.delete tid s.tasks
      (.ok (), { s with taskAssignees := ta, tasks := ts })

/-- `Routes.updateTaskDescription`: look up the task's project, creator check,
then patch the description. -/
def updateTaskDescription (user tid : Nat) (description : String) (s : AppState) :
    Except AppError Unit × AppState :=
  match (Tasking.getTask tid s.tasks).map (fun t => t.project) with
  | none => (.error (.notAllowed "Task does not exist!"), s)
  | some pid =>
    match Project.assertUserIsCreator pid user s.projects with
    | .error e => (.error e, s)
    | .ok _ => (.ok (), { s with tasks := Tasking.updateDescription tid description s.tasks })

/-- `Routes.addTaskAssignee`: look up the task's project, creator check, then
add the (task, assignee) pair — no membership assertion is performed. -/
def addTaskAssignee (user tid assignee : Nat) (s : AppState) :
    Except AppError Unit × AppState :=
  match (Tasking.getTask tid s.tasks).map (fun t => t.project) with
  | none => (.error (.notAllowed "Task does not exist!"), s)
  | some pid =>
    match Project.assertUserIsCreator pid user s.projects with
    | .error e => (.error e, s)
    | .ok _ =>
      (.ok (), { s with taskAssignees := GroupItem.addGroupItem tid assignee s.taskAssignees })

/-- `Routes.unassignTask`: look up the task's project, creator check, then
delete all task-assignee links of the task. -/
def unassignTask (user tid : Nat) (s : AppState) : Except AppError Unit × AppState :=
  match (Tasking.getTask tid s.tasks).map (fun t => t.project) with
  | none => (.error (.notAllowed "Task does not exist!"), s)
  | some pid =>
    match Project.assertUserIsCreator pid user s.projects with
    | .error e => (.error e, s)
    | .ok _ =>
      (.ok (), { s with taskAssignees := GroupItem.deleteAllItemsInGroup tid s.taskAssignees })

end Routes

/-! Helper lemmas about the document-store primitives and the assertions. -/

/-- Membership in a delete-many result: the document survived and does not
match the filter. -/
theorem mem_deleteMany {α : Type} {p : α → Bool} {l : List α} {x : α} :
    x ∈ deleteMany p l ↔ x ∈ l ∧ p x = false := by
  simp [deleteMany, List.mem_filter]

/-- Patching the first filter match moves `find?` to the patched document,
provided the patch preserves the filter. -/
theorem find?_updateFirst {α : Type} {p : α → Bool} {f : α → α}
    (hf : ∀ a, p a = true → p (f a) = true) {l : List α} {x : α}
    (h : l.find? p = some x) : (updateFirst p f l).find? p = some (f x) := by
  induction l with
  | nil => simp at h
  | cons a l ih =>
    by_cases hpa : p a = true
    · rw [List.find?_cons_of_pos _ hpa] at h
      obtain rfl : a = x := by injection h
      unfold updateFirst
      rw [if_pos hpa, List.find?_cons_of_pos _ (hf a hpa)]
    · rw [List.find?_cons_of_neg _ hpa] at h
      unfold updateFirst
      rw [if_neg hpa, List.find?_cons_of_neg _ hpa]
      exact ih h

/-- `assertUserIsCreator` succeeds when the looked-up project's creator is the
user. -/
theorem assertUserIsCreator_ok {pid user : Nat} {s : ProjectState} {p : ProjectDoc}
    (hp : Project.getProject pid s = some p) (hc : p.creator = user) :
    Project.assertUserIsCreator pid user s = .ok () := by
  unfold Project.assertUserIsCreator
  rw [hp]
  simp [hc]

/-- `assertUserIsCreator` throws `UserCreatorNotMatchError` when the looked-up
project's creator differs from the user. -/
theorem assertUserIsCreator_mismatch {pid user : Nat} {s : ProjectState} {p : ProjectDoc}
    (hp : Project.getProject pid s = some p) (hc : p.creator ≠ user) :
    Project.assertUserIsCreator pid user s = .error (.userCreatorNotMatch user pid) := by
  unfold Project.assertUserIsCreator
  rw [hp]
  simp [hc]

/-- `assertItemInGroup` succeeds when some record holds the pair. -/
theorem assertItemInGroup_ok {g i : Nat} {s : GroupItemState} {d : GroupItemDoc}
    (hd : d ∈ s.docs) (hg : d.group = g) (hi : d.item = i) :
    GroupItem.assertItemInGroup g i s = .ok () := by
  unfold GroupItem.assertItemInGroup readOne
  have hsome : (s.docs.find? (fun d => d.group == g && d.item == i)).isSome = true := by
    rw [List.find?_isSome]
    exact ⟨d, hd, by simp [hg, hi]⟩
  obtain ⟨e, he⟩ := Option.isSome_iff_exists.mp hsome
  rw [he]

/-- `assertItemInGroup` throws `NotFoundError` when no record holds the pair. -/
theorem assertItemInGroup_absent {g i : Nat} {s : GroupItemState}
    (h : ∀ d ∈ s.docs, ¬(d.group = g ∧ d.item = i)) :
    GroupItem.assertItemInGroup g i s = .error (.notFound s!"Item {i} not in group {g}!") := by
  unfold GroupItem.assertItemInGroup readOne
  have hnone : s.docs.find? (fun d => d.group == g && d.item == i) = none := by
    rw [List.find?_eq_none]
    intro x hx
    simp only [Bool.and_eq_true, beq_iff_eq]
    exact h x hx
  rw [hnone]

/-- Any survivor of the per-task assignee-link deletion fold was already
present and belongs to none of the folded tasks. -/
theorem mem_foldl_deleteAllItemsInGroup {ts : List TaskDoc} {acc : GroupItemState}
    {d : GroupItemDoc}
    (hd : d ∈ (ts.foldl (fun a t => GroupItem.deleteAllItemsInGroup t._id a) acc).docs) :
    d ∈ acc.docs ∧ ∀ t ∈ ts, d.group ≠ t._id := by
  induction ts generalizing acc with
  | nil => exact ⟨hd, by simp⟩
  | cons t ts ih =>
    rw [List.foldl_cons] at hd
    obtain ⟨h1, h2⟩ := ih hd
    simp only [GroupItem.deleteAllItemsInGroup] at h1
    have h3 := mem_deleteMany.mp h1
    refine ⟨h3.1, ?_⟩
    intro t' ht'
    rcases List.mem_cons.mp ht' with rfl | ht'
    · simpa using h3.2
    · exact h2 t' ht'

/-- A small concrete state used to instantiate the theorems: project 0 owned
by user 10 (who is its only member), one task 0 under project 0 with no
assignee, and no task-assignee links. -/
def sampleState : AppState :=
  ⟨⟨[⟨0, 10, "p"⟩], 1⟩, ⟨[⟨0, 0, 10⟩], 1⟩, ⟨[⟨0, "t", 0, none, false⟩], 1⟩, ⟨[], 0⟩⟩

/-- C1: for every project, the route-layer project deletion performs the
cascade in the fixed order — membership links of the project, then
task-assignee links of every task under the project, then the tasks, then the
project record (the first five conjuncts tie each resulting collection to the
corresponding step of `Routes.deleteProject`, whose body executes them in
exactly that order) — and afterwards no `GroupItem` record references the
deleted project (in the membership collection) or any of its deleted tasks
(in the task-assignee collection). -/
theorem deleteProject_cascade (user pid : Nat) (s : AppState) (p : ProjectDoc)
    (hp : Project.getProject pid s.projects = some p) (hc : p.creator = user) :
    (Routes.deleteProject user pid s).1 = .ok "Project successfully deleted!" ∧
    (Routes.deleteProject user pid s).2.projectMembers =
      GroupItem.deleteAllItemsInGroup pid s.projectMembers ∧
    (Routes.deleteProject user pid s).2.taskAssignees =
      (Tasking.getAllTasksForProject pid s.tasks).foldl
        (fun acc t => GroupItem.deleteAllItemsInGroup t._id acc) s.taskAssignees ∧
    (Routes.deleteProject user pid s).2.tasks = Tasking.deleteTasksForProject pid s.tasks ∧
    (Routes.deleteProject user pid s).2.projects = Project.deleteProject pid s.projects ∧
    (∀ d ∈ (Routes.deleteProject user pid s).2.projectMembers.docs, d.group ≠ pid) ∧
    (∀ t ∈ s.tasks.docs, t.project = pid →
      ∀ d ∈ (Routes.deleteProject user pid s).2.taskAssignees.docs, d.group ≠ t._id) ∧
    (∀ t ∈ (Routes.deleteProject user pid s).2.tasks.docs, t.project ≠ pid) := by
  have ha := assertUserIsCreator_ok hp hc
  simp only [Routes.deleteProject, ha]
  refine ⟨trivial, trivial, trivial, trivial, trivial, ?_, ?_, ?_⟩
  · intro d hd
    simp only [GroupItem.deleteAllItemsInGroup] at hd
    have h2 := (mem_deleteMany.mp hd).2
    simpa using h2
  · intro t ht htp d hd
    have h2 := (mem_foldl_deleteAllItemsInGroup hd).2
    apply h2
    simp [Tasking.getAllTasksForProject, readMany, List.mem_filter, ht, htp]
  · intro t ht
    simp only [Tasking.deleteTasksForProject] at ht
    have h2 := (mem_deleteMany.mp ht).2
    simpa using h2

/-- Witness for C1: the cascade succeeds on the concrete sample state. -/
theorem deleteProject_cascade_witness :
    Project.getProject 0 sampleState.projects = some ⟨0, 10, "p"⟩ ∧
    (Routes.deleteProject 10 0 sampleState).1 = .ok "Project successfully deleted!" :=
  ⟨rfl, (deleteProject_cascade 10 0 sampleState ⟨0, 10, "p"⟩ rfl rfl).1⟩

/-- C2: for every session user who is not the creator of a project, each of
delete project, rename project, add member, remove member, create task,
delete task and update task description fails with the Forbidden
creator-mismatch error (`UserCreatorNotMatchError`) and returns the store
unchanged (for the task routes, for any task that belongs to the project). -/
theorem nonCreator_routes_forbidden (user pid : Nat) (s : AppState) (p : ProjectDoc)
    (hp : Project.getProject pid s.projects = some p) (hc : p.creator ≠ user) :
    Routes.deleteProject user pid s = (.error (.userCreatorNotMatch user pid), s) ∧
    (∀ name, Routes.updateProjectName user pid name s =
      (.error (.userCreatorNotMatch user pid), s)) ∧
    (∀ member, Routes.addMemberToProject user pid member s =
      (.error (.userCreatorNotMatch user pid), s)) ∧
    (∀ member, Routes.deleteMemberFromProject user pid member s =
      (.error (.userCreatorNotMatch user pid), s)) ∧
    (∀ description assignee, Routes.createTask user pid description assignee s =
      (.error (.userCreatorNotMatch user pid), s)) ∧
    (∀ tid t, Tasking.getTask tid s.tasks = some t → t.project = pid →
      Routes.deleteTask user tid s = (.error (.userCreatorNotMatch user pid), s) ∧
      ∀ description, Routes.updateTaskDescription user tid description s =
        (.error (.userCreatorNotMatch user pid), s)) := by
  have ha := assertUserIsCreator_mismatch hp hc
  refine ⟨?_, ?_, ?_, ?_, ?_, ?_⟩
  · simp only [Routes.deleteProject, ha]
  · intro name
    simp only [Routes.updateProjectName, ha]
  · intro member
    simp only [Routes.addMemberToProject, ha]
  · intro member
    simp only [Routes.deleteMemberFromProject, ha]
  · intro description assignee
    simp only [Routes.createTask, ha]
  · intro tid t ht htp
    subst htp
    constructor
    · simp only [Routes.deleteTask, ht, Option.map_some', ha]
    · intro description
      simp only [Routes.updateTaskDescription, ht, Option.map_some', ha]

/-- Witness for C2: user 11 is not the creator of project 0 in the sample
state, and deleting the project fails with the creator-mismatch error while
leaving the store unchanged. -/
theorem nonCreator_routes_forbidden_witness :
    Project.getProject 0 sampleState.projects = some ⟨0, 10, "p"⟩ ∧
    Routes.deleteProject 11 0 sampleState =
      (.error (.userCreatorNotMatch 11 0), sampleState) :=
  ⟨rfl, (nonCreator_routes_forbidden 11 0 sampleState ⟨0, 10, "p"⟩ rfl (by decide)).1⟩

/-- C3 counterexample: user 99 is not a member of project 0 in the sample
state, yet `Routes.addTaskAssignee` (assigning 99 to existing task 0 of that
project) succeeds and creates the task-assignee link — refuting the claim
that every assigning route fails for a non-member and creates no link. -/
theorem addTaskAssignee_nonmember_counterexample :
    (∀ d ∈ sampleState.projectMembers.docs, ¬(d.group = 0 ∧ d.item = 99)) ∧
    (Routes.addTaskAssignee 10 0 99 sampleState).1 = .ok () ∧
    (⟨0, 0, 99⟩ : GroupItemDoc) ∈
      (Routes.addTaskAssignee 10 0 99 sampleState).2.taskAssignees.docs := by
  exact ⟨by decide, rfl, by decide⟩

/-- C3 amended: task creation with a non-member assignee fails with the
NotFound membership error and creates no task-assignee link (though the bare
task record itself has already been inserted); `Routes.addTaskAssignee`, by
contrast, performs no membership check — invoked by the project's creator on
an existing task of the project, it always succeeds, adding the link even
for a non-member. -/
theorem assign_nonmember_amended (user pid aid tid : Nat) (description : String)
    (s : AppState) (p : ProjectDoc)
    (hp : Project.getProject pid s.projects = some p) (hc : p.creator = user) :
    ((∀ d ∈ s.projectMembers.docs, ¬(d.group = pid ∧ d.item = aid)) →
      (Routes.createTask user pid description (some aid) s).1 =
        .error (.notFound s!"Item {aid} not in group {pid}!") ∧
      (Routes.createTask user pid description (some aid) s).2.taskAssignees =
        s.taskAssignees ∧
      (Routes.createTask user pid description (some aid) s).2.tasks =
        (Tasking.create description pid none s.tasks).2) ∧
    (∀ t, Tasking.getTask tid s.tasks = some t → t.project = pid →
      Routes.addTaskAssignee user tid aid s =
        (.ok (), { s with taskAssignees := GroupItem.addGroupItem tid aid s.taskAssignees })) := by
  have ha := assertUserIsCreator_ok hp hc
  constructor
  · intro hm
    have hb := assertItemInGroup_absent hm
    simp only [Routes.createTask, ha, hb]
    exact ⟨trivial, trivial, trivial⟩
  · intro t ht htp
    subst htp
    simp only [Routes.addTaskAssignee, ht, Option.map_some', ha]

/-- Witness for the amended C3 at the sample state: creating a task with
non-member assignee 99 fails with NotFound and leaves the assignee links
empty, while `addTaskAssignee` succeeds for the same non-member. -/
theorem assign_nonmember_amended_witness :
    (Routes.createTask 10 0 "x" (some 99) sampleState).1 =
      .error (.notFound "Item 99 not in group 0!") ∧
    (Routes.createTask 10 0 "x" (some 99) sampleState).2.taskAssignees =
      sampleState.taskAssignees ∧
    Routes.addTaskAssignee 10 0 99 sampleState =
      (.ok (), { sampleState with
        taskAssignees := GroupItem.addGroupItem 0 99 sampleState.taskAssignees }) := by
  obtain ⟨h1, h2⟩ :=
    assign_nonmember_amended 10 0 99 0 "x" sampleState ⟨0, 10, "p"⟩ rfl rfl
  obtain ⟨ha, hb, -⟩ := h1 (by decide)
  exact ⟨ha, hb, h2 ⟨0, "t", 0, none, false⟩ rfl rfl⟩

/-- C4: `Project.create` fails with the Conflict (`NotAllowedError`) message
and inserts nothing when some project already has the name; otherwise it
appends a new project record with the given creator and name — and hence a
store whose names are pairwise distinct keeps that global uniqueness after
any successful `create`. -/
theorem create_name_unique (creator : Nat) (name : String) (s : ProjectState) :
    ((∃ d ∈ s.docs, d.name = name) →
      Project.create creator name s =
        (.error (.notAllowed s!"Project with name {name} already exists! Please choose a different name."), s)) ∧
    ((∀ d ∈ s.docs, d.name ≠ name) →
      (Project.create creator name s).2 =
        ⟨s.docs ++ [⟨s.nextId, creator, name⟩], s.nextId + 1⟩ ∧
      (∃ po, (Project.create creator name s).1 = .ok po) ∧
      ((s.docs.Pairwise fun a b => a.name ≠ b.name) →
        (Project.create creator name s).2.docs.Pairwise fun a b => a.name ≠ b.name)) := by
  constructor
  · rintro ⟨d, hd, hdn⟩
    have hsome : (s.docs.find? (fun x => x.name == name)).isSome = true := by
      rw [List.find?_isSome]
      exact ⟨d, hd, by simp [hdn]⟩
    obtain ⟨e, he⟩ := Option.isSome_iff_exists.mp hsome
    simp only [Project.create, Project.assertProjectNameUnique, readOne, he]
  · intro h
    have hnone : s.docs.find? (fun x => x.name == name) = none := by
      rw [List.find?_eq_none]
      intro x hx
      simpa using h x hx
    simp only [Project.create, Project.assertProjectNameUnique, readOne, hnone]
    refine ⟨trivial, ⟨_, rfl⟩, ?_⟩
    intro hpair
    rw [List.pairwise_append]
    refine ⟨hpair, by simp, ?_⟩
    intro a ha b hb
    simp only [List.mem_singleton] at hb
    subst hb
    exact h a ha

/-- Witness for C4: creating a second project named "p" fails with Conflict
and changes nothing, while a fresh name "q" is appended to the store. -/
theorem create_name_unique_witness :
    Project.create 5 "p" sampleState.projects =
      (.error (.notAllowed "Project with name p already exists! Please choose a different name."),
        sampleState.projects) ∧
    (Project.create 5 "q" sampleState.projects).2 = ⟨[⟨0, 10, "p"⟩, ⟨1, 5, "q"⟩], 2⟩ := by
  constructor
  · exact (create_name_unique 5 "p" sampleState.projects).1 ⟨⟨0, 10, "p"⟩, by decide, rfl⟩
  · exact ((create_name_unique 5 "q" sampleState.projects).2 (by decide)).1

/-- C5: for every existing task, `Tasking.unassignTask` sets the assignee
field to the absent state (`none`), so a subsequent `getTask` on the same id
returns the task with no assignee and with its description, project and
completion fields unchanged. -/
theorem unassignTask_clears (tid : Nat) (s : TaskState) (t : TaskDoc)
    (h : Tasking.getTask tid s = some t) :
    Tasking.getTask tid (Tasking.unassignTask tid s) = some { t with assignee := none } ∧
    (Tasking.getTask tid (Tasking.unassignTask tid s)).map (fun x => x.assignee) =
      some none ∧
    (Tasking.getTask tid (Tasking.unassignTask tid s)).map (fun x => x.description) =
      some t.description ∧
    (Tasking.getTask tid (Tasking.unassignTask tid s)).map (fun x => x.project) =
      some t.project ∧
    (Tasking.getTask tid (Tasking.unassignTask tid s)).map (fun x => x.completion) =
      some t.completion := by
  simp only [Tasking.getTask, readOne] at h
  have key :
      (updateFirst (fun d => d._id == tid) (fun d => { d with assignee := none })
        s.docs).find? (fun d => d._id == tid) = some { t with assignee := none } :=
    @find?_updateFirst TaskDoc (fun d => d._id == tid)
      (fun d => { d with assignee := none }) (fun a ha => ha) s.docs t h
  simp only [Tasking.getTask, Tasking.unassignTask, readOne, key, Option.map_some']
  exact ⟨trivial, trivial, trivial, trivial, trivial⟩

/-- Witness for C5: unassigning the task with assignee 7 yields the same task
with the assignee field absent. -/
theorem unassignTask_clears_witness :
    Tasking.getTask 0 (Tasking.unassignTask 0 ⟨[⟨0, "t", 0, some 7, false⟩], 1⟩) =
      some ⟨0, "t", 0, none, false⟩ :=
  (unassignTask_clears 0 ⟨[⟨0, "t", 0, some 7, false⟩], 1⟩ ⟨0, "t", 0, some 7, false⟩ rfl).1

/-- C6: `assertItemInGroup` succeeds exactly when some record holds the
(group, item) pair, and throws the NotFound error when no record does; its
type returns no state, so the store is unchanged in either case. -/
theorem assertItemInGroup_spec (g i : Nat) (s : GroupItemState) :
    (GroupItem.assertItemInGroup g i s = .ok () ↔
      ∃ d ∈ s.docs, d.group = g ∧ d.item = i) ∧
    ((∀ d ∈ s.docs, ¬(d.group = g ∧ d.item = i)) →
      GroupItem.assertItemInGroup g i s =
        .error (.notFound s!"Item {i} not in group {g}!")) := by
  constructor
  · constructor
    · intro hok
      by_cases hex : ∃ d ∈ s.docs, d.group = g ∧ d.item = i
      · exact hex
      · exfalso
        have habs := assertItemInGroup_absent (fun d hd hc => hex ⟨d, hd, hc⟩)
        rw [habs] at hok
        exact Except.noConfusion hok
    · rintro ⟨d, hd, hg, hi⟩
      exact assertItemInGroup_ok hd hg hi
  · exact assertItemInGroup_absent

/-- Witness for C6: in the sample state the pair (0, 10) is present so the
assertion succeeds, while (0, 99) is absent so it throws NotFound. -/
theorem assertItemInGroup_spec_witness :
    GroupItem.assertItemInGroup 0 10 sampleState.projectMembers = .ok () ∧
    GroupItem.assertItemInGroup 0 99 sampleState.projectMembers =
      .error (.notFound "Item 99 not in group 0!") :=
  ⟨(assertItemInGroup_spec 0 10 sampleState.projectMembers).1.mpr
      ⟨⟨0, 0, 10⟩, by decide, rfl, rfl⟩,
   (assertItemInGroup_spec 0 99 sampleState.projectMembers).2 (by decide)⟩

/-- C7: `addGroupItem` performs no uniqueness or existence check — it always
succeeds (its type throws no error) and appends a fresh record, so calling it
twice with the same pair leaves two distinct `GroupItem` records. -/
theorem addGroupItem_not_idempotent (g i : Nat) (s : GroupItemState) :
    GroupItem.addGroupItem g i s = ⟨s.docs ++ [⟨s.nextId, g, i⟩], s.nextId + 1⟩ ∧
    (GroupItem.addGroupItem g i (GroupItem.addGroupItem g i s)).docs =
      s.docs ++ [⟨s.nextId, g, i⟩, ⟨s.nextId + 1, g, i⟩] ∧
    (⟨s.nextId, g, i⟩ : GroupItemDoc) ≠ ⟨s.nextId + 1, g, i⟩ := by
  refine ⟨rfl, ?_, ?_⟩
  · simp [GroupItem.addGroupItem]
  · intro hcontra
    have h1 : s.nextId = s.nextId + 1 := congrArg (fun d => d._id) hcontra
    exact absurd h1 (by omega)

/-- Witness for C7: two inserts of the pair (1, 2) into the empty store leave
two records with distinct ids. -/
theorem addGroupItem_not_idempotent_witness :
    GroupItem.addGroupItem 1 2 (⟨[], 0⟩ : GroupItemState) = ⟨[⟨0, 1, 2⟩], 1⟩ ∧
    (GroupItem.addGroupItem 1 2 (GroupItem.addGroupItem 1 2 (⟨[], 0⟩ : GroupItemState))).docs =
      [⟨0, 1, 2⟩, ⟨1, 1, 2⟩] ∧
    (⟨0, 1, 2⟩ : GroupItemDoc) ≠ ⟨1, 1, 2⟩ :=
  addGroupItem_not_idempotent 1 2 ⟨[], 0⟩

/-- A second concrete state: projects 0 and 1 (both created by user 10),
user 7 a member of project 0, tasks 0 (project 0) and 1 (project 1), and
assignee links task 0 → 7, task 1 → 7, task 0 → 8. -/
def sampleState2 : AppState :=
  ⟨⟨[⟨0, 10, "p"⟩, ⟨1, 10, "q"⟩], 2⟩, ⟨[⟨0, 0, 10⟩, ⟨1, 0, 7⟩], 2⟩,
   ⟨[⟨0, "t", 0, none, false⟩, ⟨1, "u", 1, none, false⟩], 2⟩,
   ⟨[⟨0, 0, 7⟩, ⟨1, 1, 7⟩, ⟨2, 0, 8⟩], 3⟩⟩

/-- C8: when the creator removes a member via `Routes.deleteMemberFromProject`,
the task-assignee store becomes exactly the old store minus every link whose
item is that user — across all tasks of all projects, not only the tasks of
the project the member is removed from — and the links of other users (and
the task and project records) are unchanged. -/
theorem deleteMemberFromProject_global (user pid member : Nat) (s : AppState)
    (p : ProjectDoc)
    (hp : Project.getProject pid s.projects = some p) (hc : p.creator = user) :
    (Routes.deleteMemberFromProject user pid member s).1 = .ok () ∧
    (Routes.deleteMemberFromProject user pid member s).2.taskAssignees =
      GroupItem.deleteItemFromAllGroups member s.taskAssignees ∧
    (∀ d ∈ (Routes.deleteMemberFromProject user pid member s).2.taskAssignees.docs,
      d.item ≠ member) ∧
    (∀ d ∈ s.taskAssignees.docs, d.item ≠ member →
      d ∈ (Routes.deleteMemberFromProject user pid member s).2.taskAssignees.docs) ∧
    (Routes.deleteMemberFromProject user pid member s).2.tasks = s.tasks ∧
    (Routes.deleteMemberFromProject user pid member s).2.projects = s.projects := by
  have ha := assertUserIsCreator_ok hp hc
  simp only [Routes.deleteMemberFromProject, ha]
  refine ⟨trivial, trivial, ?_, ?_, trivial, trivial⟩
  · intro d hd
    simp only [GroupItem.deleteItemFromAllGroups] at hd
    have h2 := (mem_deleteMany.mp hd).2
    simpa using h2
  · intro d hd hne
    simp only [GroupItem.deleteItemFromAllGroups]
    exact mem_deleteMany.mpr ⟨hd, by simpa using hne⟩

/-- Witness for C8: removing member 7 from project 0 deletes 7's assignee
links on tasks of both projects while keeping user 8's link. -/
theorem deleteMemberFromProject_global_witness :
    (Routes.deleteMemberFromProject 10 0 7 sampleState2).1 = .ok () ∧
    (Routes.deleteMemberFromProject 10 0 7 sampleState2).2.taskAssignees =
      GroupItem.deleteItemFromAllGroups 7 sampleState2.taskAssignees :=
  ⟨(deleteMemberFromProject_global 10 0 7 sampleState2 ⟨0, 10, "p"⟩ rfl rfl).1,
   (deleteMemberFromProject_global 10 0 7 sampleState2 ⟨0, 10, "p"⟩ rfl rfl).2.1⟩

/-- C9: the route-layer `getProject` enforces membership only on the
lookup-by-id path — fetching by name returns the matching projects for every
logged-in user with no membership assertion, while fetching by id fails with
NotFound whenever the caller is not a member of the project. -/
theorem getProject_membership_by_id_only (user pid : Nat) (nm : String) (s : AppState) :
    Routes.getProject user (some nm) none s =
      (.ok (.byName (Project.getProjectByName nm s.projects)), s) ∧
    (∀ p ∈ s.projects.docs, p.name = nm → p ∈ Project.getProjectByName nm s.projects) ∧
    ((∀ d ∈ s.projectMembers.docs, ¬(d.group = pid ∧ d.item = user)) →
      ∀ onm, Routes.getProject user onm (some pid) s =
        (.error (.notFound s!"Item {user} not in group {pid}!"), s)) := by
  refine ⟨rfl, ?_, ?_⟩
  · intro p hp hn
    simp [Project.getProjectByName, readMany, List.mem_filter, hp, hn]
  · intro hm onm
    have hb := assertItemInGroup_absent hm
    simp only [Routes.getProject, hb]

/-- Witness for C9: non-member 99 fetches project "p" by name successfully
but fetching the same project by id 0 fails with NotFound. -/
theorem getProject_membership_by_id_only_witness :
    Routes.getProject 99 (some "p") none sampleState =
      (.ok (.byName (Project.getProjectByName "p" sampleState.projects)), sampleState) ∧
    Routes.getProject 99 none (some 0) sampleState =
      (.error (.notFound "Item 99 not in group 0!"), sampleState) := by
  obtain ⟨h1, h2, h3⟩ := getProject_membership_by_id_only 99 0 "p" sampleState
  exact ⟨h1, h3 (by decide) none⟩

/-- C10: `Project.updateProjectName` fails with the Conflict
(`NotAllowedError`) and leaves the store unchanged whenever any project —
including the one being renamed — already carries the requested name; in
particular renaming a project to its own current name always fails. -/
theorem updateProjectName_conflict (pid : Nat) (name : String) (ps : ProjectState) :
    ((∃ d ∈ ps.docs, d.name = name) →
      Project.updateProjectName pid name ps =
        (.error (.notAllowed s!"Project with name {name} already exists! Please choose a different name."), ps)) ∧
    (∀ p, Project.getProject pid ps = some p →
      ∃ m, Project.updateProjectName pid p.name ps = (.error (.notAllowed m), ps)) := by
  have main : ∀ (nm : String), (∃ d ∈ ps.docs, d.name = nm) →
      Project.updateProjectName pid nm ps =
        (.error (.notAllowed s!"Project with name {nm} already exists! Please choose a different name."), ps) := by
    rintro nm ⟨d, hd, hdn⟩
    have hsome : (ps.docs.find? (fun x => x.name == nm)).isSome = true := by
      rw [List.find?_isSome]
      exact ⟨d, hd, by simp [hdn]⟩
    obtain ⟨e, he⟩ := Option.isSome_iff_exists.mp hsome
    simp only [Project.updateProjectName, Project.assertProjectNameUnique, readOne, he]
  refine ⟨main name, ?_⟩
  intro p hp
  simp only [Project.getProject, readOne] at hp
  exact ⟨_, main p.name ⟨p, List.mem_of_find?_eq_some hp, rfl⟩⟩

/-- Witness for C10: renaming project 0 to its own current name "p" fails
with the Conflict error and leaves the store unchanged. -/
theorem updateProjectName_conflict_witness :
    Project.updateProjectName 0 "p" sampleState.projects =
      (.error (.notAllowed "Project with name p already exists! Please choose a different name."),
        sampleState.projects) :=
  (updateProjectName_conflict 0 "p" sampleState.projects).1 ⟨⟨0, 10, "p"⟩, by decide, rfl⟩

end PlantIt
